import Mathlib

/-! Apollo Lake CSE file read and FPF status cache

A shallow embedding of `src/soc/intel/apollolake/cse.c`: `read_cse_file`,
`load_cached_fpf`, `save_fpf_state` and `fpf_blown`.

The functions of other translation units that the code calls (`heci_send`,
`heci_receive`, `fmap_locate_area_as_rdev_rw`, `rdev_readat`, `rdev_writeat`)
are parameters, collected in `Platform`.  Every call of one of them, and every
`printk`, is recorded in a chronological trace of `Event`s; the answer of an
external function may depend on its arguments and on the whole trace so far.
Bytes and machine words are natural numbers, reduced `% 2^w` where the C code
stores into a field of width `w`.
-/

namespace CSE

/-! ## Constants -/

def MKHI_GROUP_ID_MCA : Nat := 0x0a
def READ_FILE : Nat := 0x02
def READ_FILE_FLAG_DEFAULT : Nat := 1 <<< 0
def READ_FILE_FLAG_HASH : Nat := 1 <<< 1
def READ_FILE_FLAG_EMULATED : Nat := 1 <<< 2
def READ_FILE_FLAG_HW : Nat := 1 <<< 3

def MCA_MAX_FILE_PATH_SIZE : Nat := 64

/-- The bytes of the string literal `"/fpf/intel/SocCfgLock"`. -/
def FUSE_LOCK_FILE : List Nat :=
  [47, 102, 112, 102, 47, 105, 110, 116, 101, 108, 47,
   83, 111, 99, 67, 102, 103, 76, 111, 99, 107]

def FUSE_FLASH_FUSED : Nat := 0xfc
def FUSE_FLASH_UNFUSED : Nat := 0xfe
def FUSE_FLASH_UNKNOWN : Nat := 0xff

def FPF_STATUS_FMAP : String := "FPF_STATUS"

/-- Console log levels that `cse.c` uses. -/
inductive LogLevel where
  | BIOS_CRIT
  | BIOS_ERR
  | BIOS_WARNING
  | BIOS_DEBUG
  deriving DecidableEq, Repr

/-! ## Message structures -/

/-- The bit-fields of `union mkhi_header`: 8 + 7 + 1 + 8 + 8 bits. -/
structure mkhi_header where
  group_id : Nat
  command : Nat
  is_response : Nat
  reserved : Nat
  result : Nat
  deriving DecidableEq, Repr

/-- The local `struct mca_command` of `read_cse_file` (packed, 77 bytes). -/
structure mca_command where
  mkhi_hdr : mkhi_header
  file_name : List Nat
  offset : Nat
  data_size : Nat
  flags : Nat
  deriving DecidableEq, Repr

/-- The local `struct mca_response` of `read_cse_file` (packed, 136 bytes);
`buffer` is the array `uint8_t buffer[128]`. -/
structure mca_response where
  mkhi_hdr : mkhi_header
  data_size : Nat
  buffer : Fin 128 → Nat

/-- Value of `sizeof(msg)` in `read_cse_file`: 4 + 64 + 4 + 4 + 1. -/
def sizeof_mca_command : Nat := 4 + MCA_MAX_FILE_PATH_SIZE + 4 + 4 + 1

/-- Value of `sizeof(rmsg.buffer)` in `read_cse_file`. -/
def sizeof_rmsg_buffer : Nat := 128

/-- Value of `sizeof(rmsg)` in `read_cse_file`: 4 + 4 + 128. -/
def sizeof_mca_response : Nat := 4 + 4 + sizeof_rmsg_buffer

/-! ## The outside world -/

/-- One externally visible action of the code. -/
inductive Event where
  | printk (level : LogLevel) (text : String)
  | fmap_locate_area_as_rdev_rw (name : String)
  | rdev_readat (offset size : Nat)
  | rdev_writeat (data : List Nat) (offset size : Nat)
  | heci_send (msg : mca_command) (len host_addr cse_addr : Nat)
  | heci_receive (capacity : Nat)
  deriving DecidableEq, Repr

/-- The external functions and constants `cse.c` depends on.  Every function
gets the trace of the events before the call.

* `fmap_locate_area_as_rdev_rw tr name` is the return value (0 on success);
  the region device it fills in is the one `rdev_readat` and `rdev_writeat`
  work on.
* `rdev_readat tr offset size` is the return value and the content of the
  one-byte destination afterwards.
* `rdev_writeat tr data offset size` is the return value.
* `heci_send tr msg len host cse` is the return value (0 on failure).
* `heci_receive tr capacity` is the return value (0 on failure), the value
  left in `*reply_size`, and the content of `rmsg` afterwards.
* `stack_msg tr` and `stack_fuse tr` are the indeterminate initial contents
  of the uninitialised locals `msg` (of `read_cse_file`) and `fuse` (of
  `fpf_blown`). -/
structure Platform where
  BIOS_HOST_ADDR : Nat
  HECI_MKHI_ADDR : Nat
  fmap_locate_area_as_rdev_rw : List Event → String → Int
  rdev_readat : List Event → Nat → Nat → Int × Nat
  rdev_writeat : List Event → List Nat → Nat → Nat → Int
  heci_send : List Event → mca_command → Nat → Nat → Nat → Int
  heci_receive : List Event → Nat → Int × Nat × mca_response
  stack_msg : List Event → mca_command
  stack_fuse : List Event → Nat

/-- The mutable state: the file-scope `g_fuse_state` (its raw value) and the
trace of events so far. -/
structure State where
  g_fuse_state : Nat
  trace : List Event
  deriving DecidableEq, Repr

/-- State at process start: `g_fuse_state` is a `static` object without an
initialiser, hence zero-initialised, and nothing has happened yet. -/
def boot_state : State := ⟨0, []⟩

/-! ## C library functions -/

/-- C `strlen` of the string stored in `s` (the list is followed by the
terminating NUL when it holds none). -/
def strlen : List Nat → Nat
  | [] => 0
  | c :: cs => if c = 0 then 0 else strlen cs + 1

/-- C `strnlen`. -/
def strnlen : List Nat → Nat → Nat
  | _, 0 => 0
  | [], _ + 1 => 0
  | c :: cs, n + 1 => if c = 0 then 0 else strnlen cs n + 1

/-- C `strncpy` into a destination of `n` bytes: the content of the
destination afterwards (the string, then NUL padding up to `n` bytes). -/
def strncpy : List Nat → Nat → List Nat
  | _, 0 => []
  | [], n + 1 => List.replicate (n + 1) 0
  | c :: cs, n + 1 => if c = 0 then List.replicate (n + 1) 0 else c :: strncpy cs n

/-- The C string held in a byte array: the bytes before the first NUL. -/
def c_string (s : List Nat) : List Nat := s.takeWhile (fun c => c ≠ 0)

/-- C `memcpy(dst, src, n)`: the content of `dst` afterwards. -/
def memcpy (dst src : List Nat) (n : Nat) : List Nat := src.take n ++ dst.drop n

/-! ## read_cse_file -/

/-- The request `read_cse_file` has built in `msg` when it calls `heci_send`
(lines 107-112); `msg0` is the indeterminate initial content of `msg`. -/
def read_cse_file_msg (msg0 : mca_command) (path : List Nat) (size offset flags : Nat) :
    mca_command :=
  { mkhi_hdr := { msg0.mkhi_hdr with
                    group_id := MKHI_GROUP_ID_MCA % 2 ^ 8,
                    command := READ_FILE % 2 ^ 7 },
    file_name := strncpy path MCA_MAX_FILE_PATH_SIZE,
    flags := flags % 2 ^ 8,
    data_size := size % 2 ^ 32,
    offset := offset % 2 ^ 32 }

/-- Embedding of `read_cse_file(path, buff, &size, offset, flags)`.  Returns the
return value, the content of `buff` afterwards, the value of `*size` afterwards
and the trace. -/
def read_cse_file (P : Platform) (path buff : List Nat) (size offset flags : Nat)
    (tr : List Event) : Int × List Nat × Nat × List Event :=
  if sizeof_rmsg_buffer < size then
    (0, buff, size, tr ++ [Event.printk LogLevel.BIOS_ERR "internal buffer is too small\n"])
  else if strnlen path MCA_MAX_FILE_PATH_SIZE ≥ MCA_MAX_FILE_PATH_SIZE then
    (0, buff, size,
      tr ++ [Event.printk LogLevel.BIOS_ERR "path too big for msg.file_name buffer\n"])
  else
    let msg := read_cse_file_msg (P.stack_msg tr) path size offset flags
    let res := P.heci_send tr msg sizeof_mca_command P.BIOS_HOST_ADDR P.HECI_MKHI_ADDR
    let tr1 := tr ++ [Event.heci_send msg sizeof_mca_command P.BIOS_HOST_ADDR P.HECI_MKHI_ADDR]
    if res = 0 then
      (0, buff, size, tr1 ++ [Event.printk LogLevel.BIOS_ERR "failed to send HECI message\n"])
    else
      let reply := P.heci_receive tr1 sizeof_mca_response
      let rmsg := reply.2.2
      let tr2 := tr1 ++ [Event.heci_receive sizeof_mca_response]
      if reply.1 = 0 then
        (0, buff, size, tr2 ++ [Event.printk LogLevel.BIOS_ERR "failed to receive HECI reply\n"])
      else if rmsg.data_size > size then
        (0, buff, size, tr2 ++ [Event.printk LogLevel.BIOS_ERR "reply is too large\n"])
      else
        (1, memcpy buff (List.ofFn rmsg.buffer) rmsg.data_size, rmsg.data_size, tr2)

/-! ## The FPF status cache -/

/-- Embedding of `load_cached_fpf(rdev)`: the state it returns and the trace. -/
def load_cached_fpf (P : Platform) (tr : List Event) : Nat × List Event :=
  let r := P.rdev_readat tr 0 1
  let tr1 := tr ++ [Event.rdev_readat 0 1]
  if r.1 ≥ 0 then
    (r.2 % 2 ^ 8, tr1)
  else
    (FUSE_FLASH_UNKNOWN, tr1 ++ [Event.printk LogLevel.BIOS_WARNING "failed to load cached FPF value\n"])

/-- Embedding of `save_fpf_state(state, rdev)`: its return value and the trace. -/
def save_fpf_state (P : Platform) (state : Nat) (tr : List Event) : Int × List Event :=
  let buff := state % 2 ^ 8
  (P.rdev_writeat tr [buff] 0 1, tr ++ [Event.rdev_writeat [buff] 0 1])

/-- Lines 173-175 of `fpf_blown`: locate the region and, when it is there,
load the cached value into `g_fuse_state`.  Returns `rdev_valid` and the
state. -/
def fpf_blown_lookup (P : Platform) (s : State) : Bool × State :=
  let tr1 := s.trace ++ [Event.fmap_locate_area_as_rdev_rw FPF_STATUS_FMAP]
  if P.fmap_locate_area_as_rdev_rw s.trace FPF_STATUS_FMAP = 0 then
    let c := load_cached_fpf P tr1
    (true, ⟨c.1, c.2⟩)
  else
    (false, ⟨s.g_fuse_state, tr1⟩)

/-- The call `read_cse_file(FUSE_LOCK_FILE, &fuse, &sz, 0, READ_FILE_FLAG_HW)`
of `fpf_blown`, made with trace `tr`; `fuse` is uninitialised and `sz` is 1. -/
def fpf_blown_read (P : Platform) (tr : List Event) : Int × List Nat × Nat × List Event :=
  read_cse_file P FUSE_LOCK_FILE [P.stack_fuse tr] 1 0 READ_FILE_FLAG_HW tr

/-- Embedding of `fpf_blown`. -/
def fpf_blown (P : Platform) (s : State) : State :=
  let l := fpf_blown_lookup P s
  let rdev_valid := l.1
  let s1 := l.2
  if rdev_valid = true ∧ s1.g_fuse_state ≠ FUSE_FLASH_UNKNOWN then
    s1
  else
    let r := fpf_blown_read P s1.trace
    if r.1 = 0 then
      ⟨s1.g_fuse_state, r.2.2.2⟩
    else
      let fuse := r.2.1.headD 0
      let g := if fuse = 1 then FUSE_FLASH_FUSED else FUSE_FLASH_UNFUSED
      if rdev_valid = true then
        let w := save_fpf_state P g r.2.2.2
        if w.1 < 0 then
          ⟨g, w.2 ++ [Event.printk LogLevel.BIOS_CRIT "failed to save FPF state\n"]⟩
        else
          ⟨g, w.2⟩
      else
        ⟨g, r.2.2.2⟩

/-- The `switch (g_fuse_state)` of `dump_cse_state` (lines 273-283): the text
printed after "ME: FPF status              : ".  The `default:` label shares
the branch of `FUSE_FLASH_UNKNOWN`. -/
def fpf_status_text (g_fuse_state : Nat) : String :=
  if g_fuse_state = FUSE_FLASH_UNFUSED then "unfused"
  else if g_fuse_state = FUSE_FLASH_FUSED then "fused"
  else "unknown"

/-! ## Observations on traces -/

/-- Number of `heci_send` calls in a trace. -/
def count_send (tr : List Event) : Nat :=
  (tr.filter fun e => match e with
    | Event.heci_send _ _ _ _ => true
    | _ => false).length

/-- Number of `heci_receive` calls in a trace. -/
def count_receive (tr : List Event) : Nat :=
  (tr.filter fun e => match e with
    | Event.heci_receive _ => true
    | _ => false).length

/-- The `rdev_writeat` calls of a trace, in order: data, offset, size. -/
def writes (tr : List Event) : List (List Nat × Nat × Nat) :=
  tr.filterMap fun e => match e with
    | Event.rdev_writeat d o n => some (d, o, n)
    | _ => none

/-- The requests handed to `heci_send` in a trace, in order. -/
def sent_messages (tr : List Event) : List mca_command :=
  tr.filterMap fun e => match e with
    | Event.heci_send m _ _ _ => some m
    | _ => none

/-- The byte at offset 0 of a region that held `init` and has since seen the
one-byte writes at offset 0 recorded in the trace. -/
def last_written (init : Nat) : List Event → Nat
  | [] => init
  | Event.rdev_writeat [b] 0 1 :: tr => last_written (b % 2 ^ 8) tr
  | _ :: tr => last_written init tr

/-- A functioning persistent region that held byte `init` at first: locating
it succeeds, a read succeeds and returns the byte last written (or `init`),
and writes succeed. -/
def functioning_region (P : Platform) (init : Nat) : Prop :=
  ∀ tr : List Event,
    P.fmap_locate_area_as_rdev_rw tr FPF_STATUS_FMAP = 0 ∧
    0 ≤ (P.rdev_readat tr 0 1).1 ∧
    (P.rdev_readat tr 0 1).2 = last_written init tr ∧
    ∀ d, 0 ≤ P.rdev_writeat tr d 0 1

/-! ## Observations on a call of read_cse_file -/

/-- The request handed to `heci_send` by a call of `read_cse_file` that gets
past its two argument checks. -/
def request (P : Platform) (path : List Nat) (size offset flags : Nat) (tr : List Event) :
    mca_command :=
  read_cse_file_msg (P.stack_msg tr) path size offset flags

/-- Return value of the `heci_send` call of `read_cse_file`. -/
def send_result (P : Platform) (path : List Nat) (size offset flags : Nat) (tr : List Event) :
    Int :=
  P.heci_send tr (request P path size offset flags tr) sizeof_mca_command
    P.BIOS_HOST_ADDR P.HECI_MKHI_ADDR

/-- The trace right after the `heci_send` call of `read_cse_file`. -/
def sent_trace (P : Platform) (path : List Nat) (size offset flags : Nat) (tr : List Event) :
    List Event :=
  tr ++ [Event.heci_send (request P path size offset flags tr) sizeof_mca_command
    P.BIOS_HOST_ADDR P.HECI_MKHI_ADDR]

/-- What the `heci_receive` call of `read_cse_file` answers: return value,
reported received size, content of `rmsg`. -/
def reply (P : Platform) (path : List Nat) (size offset flags : Nat) (tr : List Event) :
    Int × Nat × mca_response :=
  P.heci_receive (sent_trace P path size offset flags tr) sizeof_mca_response

/-! ## Lemmas on the C library functions and on traces -/

theorem strnlen_eq_min (s : List Nat) (n : Nat) : strnlen s n = min (strlen s) n := by
  induction s generalizing n with
  | nil => cases n <;> simp [strnlen, strlen]
  | cons c cs ih =>
    cases n with
    | zero => simp [strnlen]
    | succ n =>
      by_cases hc : c = 0
      · simp [strnlen, strlen, hc]
      · simp only [strnlen, strlen, hc, ih n, if_false]; omega

theorem strnlen_ge_iff (s : List Nat) (n : Nat) : n ≤ strnlen s n ↔ n ≤ strlen s := by
  rw [strnlen_eq_min]; omega

theorem count_send_append (a b : List Event) :
    count_send (a ++ b) = count_send a + count_send b := by
  simp [count_send]

theorem count_receive_append (a b : List Event) :
    count_receive (a ++ b) = count_receive a + count_receive b := by
  simp [count_receive]

theorem writes_append (a b : List Event) : writes (a ++ b) = writes a ++ writes b := by
  simp [writes]

theorem sent_messages_append (a b : List Event) :
    sent_messages (a ++ b) = sent_messages a ++ sent_messages b := by
  simp [sent_messages]

theorem c_string_length (s : List Nat) : (c_string s).length = strlen s := by
  induction s with
  | nil => rfl
  | cons c cs ih =>
    by_cases hc : c = 0
    · simp [c_string, strlen, hc]
    · simp [c_string] at ih
      simp [c_string, strlen, hc, ih]

theorem c_string_append_zeros (s : List Nat) (k : Nat) :
    c_string (c_string s ++ List.replicate k 0) = c_string s := by
  induction s with
  | nil =>
    cases k with
    | zero => rfl
    | succ k => simp [c_string, List.replicate_succ]
  | cons c cs ih =>
    by_cases hc : c = 0
    · subst hc
      cases k with
      | zero => simp [c_string]
      | succ k => simp [c_string, List.replicate_succ]
    · simp [c_string] at ih
      simp [c_string, hc, ih]

theorem strncpy_eq (s : List Nat) (n : Nat) :
    strncpy s n = (c_string s).take n ++ List.replicate (n - strlen s) 0 := by
  induction s generalizing n with
  | nil => cases n <;> simp [strncpy, c_string, strlen]
  | cons c cs ih =>
    cases n with
    | zero => simp [strncpy]
    | succ n =>
      by_cases hc : c = 0
      · simp [strncpy, c_string, strlen, hc]
      · simp [c_string] at ih
        simp [strncpy, c_string, strlen, hc, ih n]

theorem strncpy_length (s : List Nat) (n : Nat) : (strncpy s n).length = n := by
  rw [strncpy_eq, List.length_append, List.length_take, List.length_replicate, c_string_length]
  omega

/-- Value of `read_cse_file` once both argument checks are passed and the send
and the receive have succeeded. -/
theorem read_cse_file_exchanged (P : Platform) (path buff : List Nat)
    (size offset flags : Nat) (tr : List Event)
    (hsize : size ≤ 128) (hpath : strlen path < 64)
    (hsend : send_result P path size offset flags tr ≠ 0)
    (hrecv : (reply P path size offset flags tr).1 ≠ 0) :
    read_cse_file P path buff size offset flags tr =
      if size < (reply P path size offset flags tr).2.2.data_size then
        (0, buff, size,
          sent_trace P path size offset flags tr ++ [Event.heci_receive sizeof_mca_response] ++
            [Event.printk LogLevel.BIOS_ERR "reply is too large\n"])
      else
        (1, memcpy buff (List.ofFn (reply P path size offset flags tr).2.2.buffer)
              (reply P path size offset flags tr).2.2.data_size,
          (reply P path size offset flags tr).2.2.data_size,
          sent_trace P path size offset flags tr ++ [Event.heci_receive sizeof_mca_response]) := by
  have h1 : ¬ sizeof_rmsg_buffer < size := by simp [sizeof_rmsg_buffer]; omega
  have h2 : ¬ strnlen path MCA_MAX_FILE_PATH_SIZE ≥ MCA_MAX_FILE_PATH_SIZE := by
    rw [ge_iff_le, strnlen_ge_iff]; simp [MCA_MAX_FILE_PATH_SIZE]; omega
  unfold send_result request at hsend
  unfold reply sent_trace request at hrecv
  unfold read_cse_file
  simp only [h1, h2, if_false, hsend, hrecv, reply, sent_trace, request, gt_iff_lt]

/-! ## Sample platforms -/

/-- An MKHI header of a READ_FILE response with the given result code. -/
def response_hdr (result : Nat) : mkhi_header :=
  ⟨MKHI_GROUP_ID_MCA, READ_FILE, 1, 0, result⟩

/-- A READ_FILE response with the given result code and declared data size
whose buffer holds `first` in its first byte and zeros elsewhere. -/
def response (result data_size first : Nat) : mca_response :=
  { mkhi_hdr := response_hdr result,
    data_size := data_size,
    buffer := fun i => if i.val = 0 then first else 0 }

/-- An all-zero `msg` as stack content. -/
def zero_msg : mca_command := ⟨⟨0, 0, 0, 0, 0⟩, List.replicate 64 0, 0, 0, 0⟩

/-- A platform whose external functions always give the same answers:
`locate` from `fmap_locate_area_as_rdev_rw`, `cached` from `rdev_readat`,
0 from `rdev_writeat`, `send` from `heci_send`, and `recv`, `reported`, `rmsg`
from `heci_receive`; the uninitialised `fuse` holds `fuse0`. -/
def scripted (locate : Int) (cached : Int × Nat) (send recv : Int) (reported : Nat)
    (rmsg : mca_response) (fuse0 : Nat) : Platform :=
  { BIOS_HOST_ADDR := 0,
    HECI_MKHI_ADDR := 7,
    fmap_locate_area_as_rdev_rw := fun _ _ => locate,
    rdev_readat := fun _ _ _ => cached,
    rdev_writeat := fun _ _ _ _ => 0,
    heci_send := fun _ _ _ _ _ => send,
    heci_receive := fun _ _ => (recv, reported, rmsg),
    stack_msg := fun _ => zero_msg,
    stack_fuse := fun _ => fuse0 }

/-- A platform with a functioning region that held `init` at first, and a
transport that always gives the same answers. -/
def flash_platform (init : Nat) (send recv : Int) (rmsg : mca_response) : Platform :=
  { BIOS_HOST_ADDR := 0,
    HECI_MKHI_ADDR := 7,
    fmap_locate_area_as_rdev_rw := fun _ _ => 0,
    rdev_readat := fun tr _ _ => (1, last_written init tr),
    rdev_writeat := fun _ _ _ _ => 1,
    heci_send := fun _ _ _ _ _ => send,
    heci_receive := fun _ _ => (recv, 9, rmsg),
    stack_msg := fun _ => zero_msg,
    stack_fuse := fun _ => 0 }

/-! ## Claims on read_cse_file -/

/-- C6: a call of `read_cse_file` whose path has length at least 64 or whose
requested size exceeds 128 returns 0 with the caller's buffer and `*size`
unchanged, and performs neither a `heci_send` nor a `heci_receive`: the only
event it adds is one `printk`. -/
theorem read_cse_file_rejects_before_transport (P : Platform) (path buff : List Nat)
    (size offset flags : Nat) (tr : List Event)
    (h : 64 ≤ strlen path ∨ 128 < size) :
    (read_cse_file P path buff size offset flags tr).1 = 0 ∧
    (read_cse_file P path buff size offset flags tr).2.1 = buff ∧
    (read_cse_file P path buff size offset flags tr).2.2.1 = size ∧
    count_send (read_cse_file P path buff size offset flags tr).2.2.2 = count_send tr ∧
    count_receive (read_cse_file P path buff size offset flags tr).2.2.2 = count_receive tr ∧
    ∃ text, (read_cse_file P path buff size offset flags tr).2.2.2 =
      tr ++ [Event.printk LogLevel.BIOS_ERR text] := by
  by_cases h1 : sizeof_rmsg_buffer < size
  · simp [read_cse_file, h1, count_send_append, count_receive_append, count_send,
      count_receive]
  · have hp : 64 ≤ strlen path := by
      rcases h with h | h
      · exact h
      · exact absurd h (by simpa [sizeof_rmsg_buffer] using h1)
    have h2 : strnlen path MCA_MAX_FILE_PATH_SIZE ≥ MCA_MAX_FILE_PATH_SIZE := by
      rw [ge_iff_le, strnlen_ge_iff]; simpa [MCA_MAX_FILE_PATH_SIZE] using hp
    simp [read_cse_file, h1, h2, count_send_append, count_receive_append, count_send,
      count_receive]

/-- Witness for C6: a 64-character path, on a platform whose transport would
succeed. -/
theorem read_cse_file_rejects_before_transport_witness :
    (64 ≤ strlen (List.replicate 64 65) ∨ 128 < 1) ∧
    (read_cse_file (scripted 0 (1, 255) 1 1 9 (response 0 1 1) 0)
      (List.replicate 64 65) [7] 1 0 8 []).1 = 0 :=
  ⟨by decide,
   (read_cse_file_rejects_before_transport (scripted 0 (1, 255) 1 1 9 (response 0 1 1) 0)
      (List.replicate 64 65) [7] 1 0 8 [] (by decide)).1⟩

/-- C1: when the send and the receive of `read_cse_file` succeed and the
response declares a `data_size` greater than the requested size (itself at
most 128), `read_cse_file` returns 0, the caller's buffer is unchanged and
`*size` is unchanged.  The declared size is any natural number above the
requested one, so every value up to 2^32 - 1 is covered. -/
theorem read_cse_file_oversized_reply (P : Platform) (path buff : List Nat)
    (size offset flags : Nat) (tr : List Event)
    (hsize : size ≤ 128) (hpath : strlen path < 64)
    (hsend : send_result P path size offset flags tr ≠ 0)
    (hrecv : (reply P path size offset flags tr).1 ≠ 0)
    (hbig : size < (reply P path size offset flags tr).2.2.data_size) :
    (read_cse_file P path buff size offset flags tr).1 = 0 ∧
    (read_cse_file P path buff size offset flags tr).2.1 = buff ∧
    (read_cse_file P path buff size offset flags tr).2.2.1 = size := by
  rw [read_cse_file_exchanged P path buff size offset flags tr hsize hpath hsend hrecv,
    if_pos hbig]
  exact ⟨rfl, rfl, rfl⟩

/-- Witness for C1: the fuse lock file is asked for with size 1 and the reply
declares 2^32 - 1 bytes. -/
theorem read_cse_file_oversized_reply_witness :
    (read_cse_file (scripted 0 (1, 255) 1 1 136 (response 0 (2 ^ 32 - 1) 1) 0)
      FUSE_LOCK_FILE [7] 1 0 READ_FILE_FLAG_HW []).1 = 0 ∧
    (read_cse_file (scripted 0 (1, 255) 1 1 136 (response 0 (2 ^ 32 - 1) 1) 0)
      FUSE_LOCK_FILE [7] 1 0 READ_FILE_FLAG_HW []).2.1 = [7] ∧
    (read_cse_file (scripted 0 (1, 255) 1 1 136 (response 0 (2 ^ 32 - 1) 1) 0)
      FUSE_LOCK_FILE [7] 1 0 READ_FILE_FLAG_HW []).2.2.1 = 1 :=
  read_cse_file_oversized_reply (scripted 0 (1, 255) 1 1 136 (response 0 (2 ^ 32 - 1) 1) 0)
    FUSE_LOCK_FILE [7] 1 0 READ_FILE_FLAG_HW [] (by decide) (by decide) (by decide)
    (by decide) (by decide)

/-- C2 (behaviour of the code): a response whose header carries the non-zero
result code 1 is accepted: `read_cse_file` returns 1, reports size 1 and copies
the first byte of the response buffer into the caller's buffer.  The `result`
field is not examined. -/
theorem read_cse_file_accepts_nonzero_result :
    (response 1 1 1).mkhi_hdr.result ≠ 0 ∧
    send_result (scripted 0 (1, 255) 1 1 136 (response 1 1 1) 0)
      FUSE_LOCK_FILE 1 0 READ_FILE_FLAG_HW [] ≠ 0 ∧
    (reply (scripted 0 (1, 255) 1 1 136 (response 1 1 1) 0)
      FUSE_LOCK_FILE 1 0 READ_FILE_FLAG_HW []).1 ≠ 0 ∧
    (read_cse_file (scripted 0 (1, 255) 1 1 136 (response 1 1 1) 0)
      FUSE_LOCK_FILE [7] 1 0 READ_FILE_FLAG_HW []).1 = 1 ∧
    (read_cse_file (scripted 0 (1, 255) 1 1 136 (response 1 1 1) 0)
      FUSE_LOCK_FILE [7] 1 0 READ_FILE_FLAG_HW []).2.1 = [1] ∧
    (read_cse_file (scripted 0 (1, 255) 1 1 136 (response 1 1 1) 0)
      FUSE_LOCK_FILE [7] 1 0 READ_FILE_FLAG_HW []).2.2.1 = 1 := by
  refine ⟨by decide, by decide, by decide, ?_, ?_, ?_⟩ <;>
  · rw [read_cse_file_exchanged _ _ _ _ _ _ _ (by decide) (by decide) (by decide) (by decide)]
    decide

/-- C7, counterexample: the receive succeeds and reports 200 received bytes,
more than the 136 bytes of capacity it was given, and `read_cse_file` still
returns 1 and delivers the byte. -/
theorem read_cse_file_oversized_receive_accepted :
    sizeof_mca_response = 136 ∧
    (reply (scripted 0 (1, 255) 1 1 200 (response 0 1 1) 0)
      FUSE_LOCK_FILE 1 0 READ_FILE_FLAG_HW []).1 ≠ 0 ∧
    sizeof_mca_response < (reply (scripted 0 (1, 255) 1 1 200 (response 0 1 1) 0)
      FUSE_LOCK_FILE 1 0 READ_FILE_FLAG_HW []).2.1 ∧
    (read_cse_file (scripted 0 (1, 255) 1 1 200 (response 0 1 1) 0)
      FUSE_LOCK_FILE [7] 1 0 READ_FILE_FLAG_HW []).1 = 1 ∧
    (read_cse_file (scripted 0 (1, 255) 1 1 200 (response 0 1 1) 0)
      FUSE_LOCK_FILE [7] 1 0 READ_FILE_FLAG_HW []).2.1 = [1] := by
  refine ⟨by decide, by decide, by decide, ?_, ?_⟩ <;>
  · rw [read_cse_file_exchanged _ _ _ _ _ _ _ (by decide) (by decide) (by decide) (by decide)]
    decide

/-- C7, amended: when the send and the receive succeed and the receive reports
a received size larger than the 136 bytes of capacity, `read_cse_file` does
not fail on that ground: it returns 0 exactly when the declared `data_size`
exceeds the requested size, and otherwise returns 1, copies `data_size` bytes
of the response buffer and reports `data_size`. -/
theorem read_cse_file_oversized_receive (P : Platform) (path buff : List Nat)
    (size offset flags : Nat) (tr : List Event)
    (hsize : size ≤ 128) (hpath : strlen path < 64)
    (hsend : send_result P path size offset flags tr ≠ 0)
    (hrecv : (reply P path size offset flags tr).1 ≠ 0)
    (_hover : sizeof_mca_response < (reply P path size offset flags tr).2.1) :
    ((read_cse_file P path buff size offset flags tr).1 = 0 ↔
      size < (reply P path size offset flags tr).2.2.data_size) ∧
    ((reply P path size offset flags tr).2.2.data_size ≤ size →
      (read_cse_file P path buff size offset flags tr).1 = 1 ∧
      (read_cse_file P path buff size offset flags tr).2.1 =
        memcpy buff (List.ofFn (reply P path size offset flags tr).2.2.buffer)
          (reply P path size offset flags tr).2.2.data_size ∧
      (read_cse_file P path buff size offset flags tr).2.2.1 =
        (reply P path size offset flags tr).2.2.data_size) := by
  rw [read_cse_file_exchanged P path buff size offset flags tr hsize hpath hsend hrecv]
  by_cases hbig : size < (reply P path size offset flags tr).2.2.data_size
  · rw [if_pos hbig]
    exact ⟨⟨fun _ => hbig, fun _ => rfl⟩, fun hle => absurd hbig (by omega)⟩
  · rw [if_neg hbig]
    exact ⟨⟨fun h => absurd h one_ne_zero, fun h => absurd h hbig⟩, fun _ => ⟨rfl, rfl, rfl⟩⟩

/-- Witness for C7 (amended): the receive reports 200 bytes and the response
declares one byte. -/
theorem read_cse_file_oversized_receive_witness :
    ((read_cse_file (scripted 0 (1, 255) 1 1 200 (response 0 1 5) 0)
        FUSE_LOCK_FILE [7] 1 0 READ_FILE_FLAG_HW []).1 = 0 ↔
      1 < (reply (scripted 0 (1, 255) 1 1 200 (response 0 1 5) 0)
        FUSE_LOCK_FILE 1 0 READ_FILE_FLAG_HW []).2.2.data_size) :=
  (read_cse_file_oversized_receive (scripted 0 (1, 255) 1 1 200 (response 0 1 5) 0)
    FUSE_LOCK_FILE [7] 1 0 READ_FILE_FLAG_HW [] (by decide) (by decide) (by decide)
    (by decide) (by decide)).1

theorem take_one_ofFn (f : Fin 128 → Nat) : (List.ofFn f).take 1 = [f 0] := by
  rw [@List.ofFn_succ _ 127 f]
  rfl

/-- C10, counterexample: the response declares `data_size` 0.  The read made
with requested size 1 returns 1, reports size 0 and leaves the caller's byte
as it was (7, while the response buffer starts with 1); and two runs of
`fpf_blown` that get this same response resolve to different states, Fused
when the uninitialised `fuse` happens to hold 1 and Unfused when it holds 0. -/
theorem read_cse_file_empty_reply :
    (read_cse_file (scripted 1 (1, 255) 1 1 8 (response 0 0 1) 7)
      FUSE_LOCK_FILE [7] 1 0 READ_FILE_FLAG_HW []).1 = 1 ∧
    (read_cse_file (scripted 1 (1, 255) 1 1 8 (response 0 0 1) 7)
      FUSE_LOCK_FILE [7] 1 0 READ_FILE_FLAG_HW []).2.2.1 = 0 ∧
    (read_cse_file (scripted 1 (1, 255) 1 1 8 (response 0 0 1) 7)
      FUSE_LOCK_FILE [7] 1 0 READ_FILE_FLAG_HW []).2.1 = [7] ∧
    (response 0 0 1).buffer 0 = 1 ∧
    (fpf_blown (scripted 1 (1, 255) 1 1 8 (response 0 0 1) 1) boot_state).g_fuse_state
      = FUSE_FLASH_FUSED ∧
    (fpf_blown (scripted 1 (1, 255) 1 1 8 (response 0 0 1) 0) boot_state).g_fuse_state
      = FUSE_FLASH_UNFUSED := by
  decide

/-- C10, amended: a call of `read_cse_file` with requested size 1 that returns
success reports the declared `data_size` of the response, which is 0 or 1;
when it is 1 the caller's byte equals the first byte of the response buffer,
and when it is 0 the caller's byte is unchanged. -/
theorem read_cse_file_one_byte (P : Platform) (path : List Nat) (b offset flags : Nat)
    (tr : List Event)
    (h : (read_cse_file P path [b] 1 offset flags tr).1 ≠ 0) :
    (read_cse_file P path [b] 1 offset flags tr).2.2.1 =
      (reply P path 1 offset flags tr).2.2.data_size ∧
    (read_cse_file P path [b] 1 offset flags tr).2.2.1 ≤ 1 ∧
    ((read_cse_file P path [b] 1 offset flags tr).2.2.1 = 1 →
      (read_cse_file P path [b] 1 offset flags tr).2.1 =
        [(reply P path 1 offset flags tr).2.2.buffer 0]) ∧
    ((read_cse_file P path [b] 1 offset flags tr).2.2.1 = 0 →
      (read_cse_file P path [b] 1 offset flags tr).2.1 = [b]) := by
  have hpath : strlen path < 64 := by
    by_contra hp
    apply h
    have h2 : strnlen path MCA_MAX_FILE_PATH_SIZE ≥ MCA_MAX_FILE_PATH_SIZE := by
      rw [ge_iff_le, strnlen_ge_iff]; simp [MCA_MAX_FILE_PATH_SIZE]; omega
    simp [read_cse_file, sizeof_rmsg_buffer, h2]
  have hsend : send_result P path 1 offset flags tr ≠ 0 := by
    intro hs
    apply h
    have h2 : ¬ strnlen path MCA_MAX_FILE_PATH_SIZE ≥ MCA_MAX_FILE_PATH_SIZE := by
      rw [ge_iff_le, strnlen_ge_iff]; simp [MCA_MAX_FILE_PATH_SIZE]; omega
    unfold send_result request at hs
    simp [read_cse_file, sizeof_rmsg_buffer, h2, hs]
  have hrecv : (reply P path 1 offset flags tr).1 ≠ 0 := by
    intro hr
    apply h
    have h2 : ¬ strnlen path MCA_MAX_FILE_PATH_SIZE ≥ MCA_MAX_FILE_PATH_SIZE := by
      rw [ge_iff_le, strnlen_ge_iff]; simp [MCA_MAX_FILE_PATH_SIZE]; omega
    unfold send_result request at hsend
    unfold reply sent_trace request at hr
    simp [read_cse_file, sizeof_rmsg_buffer, h2, hsend, hr]
  rw [read_cse_file_exchanged P path [b] 1 offset flags tr (by omega) hpath hsend hrecv] at h ⊢
  by_cases hbig : 1 < (reply P path 1 offset flags tr).2.2.data_size
  · simp [hbig] at h
  · simp only [hbig, if_false]
    refine ⟨trivial, by omega, ?_, ?_⟩
    · intro h1
      show memcpy [b] _ _ = _
      rw [h1, memcpy, take_one_ofFn]
      rfl
    · intro h0
      show memcpy [b] _ _ = _
      rw [h0, memcpy]
      rfl

/-- Witness for C10 (amended): a one-byte reply holding 1. -/
theorem read_cse_file_one_byte_witness :
    (read_cse_file (scripted 1 (1, 255) 1 1 9 (response 0 1 1) 7)
      FUSE_LOCK_FILE [7] 1 0 READ_FILE_FLAG_HW []).2.2.1 ≤ 1 :=
  (read_cse_file_one_byte (scripted 1 (1, 255) 1 1 9 (response 0 1 1) 7)
    FUSE_LOCK_FILE 7 0 READ_FILE_FLAG_HW [] (by decide)).2.1

/-- Once both argument checks are passed, `read_cse_file` calls `heci_send`
exactly once, calls `heci_receive` once if the send succeeded and not at all
otherwise, and writes nothing to the region. -/
theorem read_cse_file_trace (P : Platform) (path buff : List Nat)
    (size offset flags : Nat) (tr : List Event)
    (hsize : size ≤ 128) (hpath : strlen path < 64) :
    ∃ rest, (read_cse_file P path buff size offset flags tr).2.2.2 =
        sent_trace P path size offset flags tr ++ rest ∧
      count_send rest = 0 ∧ sent_messages rest = [] ∧ writes rest = [] ∧
      count_receive rest = if send_result P path size offset flags tr = 0 then 0 else 1 := by
  have h1 : ¬ sizeof_rmsg_buffer < size := by simp [sizeof_rmsg_buffer]; omega
  have h2 : ¬ strnlen path MCA_MAX_FILE_PATH_SIZE ≥ MCA_MAX_FILE_PATH_SIZE := by
    rw [ge_iff_le, strnlen_ge_iff]; simp [MCA_MAX_FILE_PATH_SIZE]; omega
  by_cases hs : send_result P path size offset flags tr = 0
  · refine ⟨[Event.printk LogLevel.BIOS_ERR "failed to send HECI message\n"], ?_, rfl, rfl, rfl,
      by rw [if_pos hs]; rfl⟩
    unfold send_result request at hs
    unfold read_cse_file
    simp only [h1, h2, if_false, hs, if_true, sent_trace, request]
  · by_cases hr : (reply P path size offset flags tr).1 = 0
    · refine ⟨[Event.heci_receive sizeof_mca_response,
        Event.printk LogLevel.BIOS_ERR "failed to receive HECI reply\n"], ?_, rfl, rfl, rfl,
        by rw [if_neg hs]; rfl⟩
      unfold send_result request at hs
      unfold reply sent_trace request at hr
      unfold read_cse_file
      simp only [h1, h2, if_false, hs, hr, if_true, sent_trace, request, List.append_assoc,
        List.singleton_append, List.cons_append, List.nil_append]
    · rw [read_cse_file_exchanged P path buff size offset flags tr hsize hpath hs hr]
      by_cases hbig : size < (reply P path size offset flags tr).2.2.data_size
      · rw [if_pos hbig]
        exact ⟨[Event.heci_receive sizeof_mca_response,
          Event.printk LogLevel.BIOS_ERR "reply is too large\n"],
          by simp only [List.append_assoc, List.singleton_append], rfl, rfl, rfl,
          by rw [if_neg hs]; rfl⟩
      · rw [if_neg hbig]
        exact ⟨[Event.heci_receive sizeof_mca_response], rfl, rfl, rfl, rfl,
          by rw [if_neg hs]; rfl⟩

/-- C9, counterexample: `read_cse_file` called with flags 0x100 hands the
transport a request whose flags field holds 0. -/
theorem read_cse_file_flags_truncated :
    (sent_messages (read_cse_file (scripted 0 (1, 255) 1 1 9 (response 0 1 1) 0)
      FUSE_LOCK_FILE [7] 1 0 0x100 []).2.2.2).map (fun m => m.flags) = [0] := by
  decide

/-- C9, amended: for a path of length below 64, a size of at most 128, an
offset below 2^32 and any flags value, `read_cse_file` hands the transport
one request.  Its 64-byte name field holds the path followed by NUL bytes, so
the C string read back from it is the path; its offset field holds the offset,
its data_size field the size, and its 8-bit flags field the flags modulo 256
(the flags themselves when they are below 256); group and command are
MKHI_GROUP_ID_MCA and READ_FILE. -/
theorem read_cse_file_request_fields (P : Platform) (path buff : List Nat)
    (size offset flags : Nat) (tr : List Event)
    (hpath : strlen path < 64) (hsize : size ≤ 128) (hoff : offset < 2 ^ 32) :
    sent_messages (read_cse_file P path buff size offset flags tr).2.2.2 =
      sent_messages tr ++ [request P path size offset flags tr] ∧
    (request P path size offset flags tr).file_name =
      c_string path ++ List.replicate (64 - strlen path) 0 ∧
    (request P path size offset flags tr).file_name.length = 64 ∧
    c_string (request P path size offset flags tr).file_name = c_string path ∧
    (request P path size offset flags tr).offset = offset ∧
    (request P path size offset flags tr).data_size = size ∧
    (request P path size offset flags tr).flags = flags % 256 ∧
    (flags < 256 → (request P path size offset flags tr).flags = flags) ∧
    (request P path size offset flags tr).mkhi_hdr.group_id = MKHI_GROUP_ID_MCA ∧
    (request P path size offset flags tr).mkhi_hdr.command = READ_FILE := by
  have hname : (request P path size offset flags tr).file_name =
      c_string path ++ List.replicate (64 - strlen path) 0 := by
    show strncpy path MCA_MAX_FILE_PATH_SIZE = _
    rw [strncpy_eq, List.take_of_length_le]
    · rfl
    · rw [c_string_length]; simp [MCA_MAX_FILE_PATH_SIZE]; omega
  refine ⟨?_, hname, ?_, ?_, ?_, ?_, rfl, ?_, rfl, rfl⟩
  · obtain ⟨rest, htr, _, hm, _, _⟩ :=
      read_cse_file_trace P path buff size offset flags tr hsize hpath
    rw [htr, sent_messages_append, hm, sent_trace, sent_messages_append]
    simp [sent_messages]
  · exact strncpy_length path MCA_MAX_FILE_PATH_SIZE
  · rw [hname, c_string_append_zeros]
  · show offset % 2 ^ 32 = offset
    exact Nat.mod_eq_of_lt hoff
  · show size % 2 ^ 32 = size
    exact Nat.mod_eq_of_lt (by omega)
  · intro hf
    show flags % 2 ^ 8 = flags
    exact Nat.mod_eq_of_lt (by omega)

/-- Witness for C9 (amended): the request `fpf_blown` makes. -/
theorem read_cse_file_request_fields_witness :
    c_string (request (scripted 0 (1, 255) 1 1 9 (response 0 1 1) 0)
      FUSE_LOCK_FILE 1 0 READ_FILE_FLAG_HW []).file_name = c_string FUSE_LOCK_FILE :=
  (read_cse_file_request_fields (scripted 0 (1, 255) 1 1 9 (response 0 1 1) 0)
    FUSE_LOCK_FILE [7] 1 0 READ_FILE_FLAG_HW [] (by decide) (by decide) (by decide)).2.2.2.1

/-! ## Lemmas on fpf_blown -/

theorem fuse_lock_file_strlen : strlen FUSE_LOCK_FILE < 64 := by decide

theorem fpf_blown_read_count_send (P : Platform) (tr : List Event) :
    count_send (fpf_blown_read P tr).2.2.2 = count_send tr + 1 := by
  obtain ⟨rest, htr, hc, _, _, _⟩ := read_cse_file_trace P FUSE_LOCK_FILE [P.stack_fuse tr] 1 0
    READ_FILE_FLAG_HW tr (by omega) fuse_lock_file_strlen
  rw [fpf_blown_read, htr, count_send_append, hc, sent_trace, count_send_append]
  rfl

theorem fpf_blown_read_writes (P : Platform) (tr : List Event) :
    writes (fpf_blown_read P tr).2.2.2 = writes tr := by
  obtain ⟨rest, htr, _, _, hw, _⟩ := read_cse_file_trace P FUSE_LOCK_FILE [P.stack_fuse tr] 1 0
    READ_FILE_FLAG_HW tr (by omega) fuse_lock_file_strlen
  rw [fpf_blown_read, htr, writes_append, hw, sent_trace, writes_append]
  simp [writes]

theorem fpf_blown_lookup_unlocated (P : Platform) (s : State)
    (hloc : P.fmap_locate_area_as_rdev_rw s.trace FPF_STATUS_FMAP ≠ 0) :
    fpf_blown_lookup P s =
      (false, ⟨s.g_fuse_state,
        s.trace ++ [Event.fmap_locate_area_as_rdev_rw FPF_STATUS_FMAP]⟩) := by
  simp [fpf_blown_lookup, hloc]

theorem fpf_blown_lookup_located (P : Platform) (s : State)
    (hloc : P.fmap_locate_area_as_rdev_rw s.trace FPF_STATUS_FMAP = 0)
    (hread : 0 ≤ (P.rdev_readat
      (s.trace ++ [Event.fmap_locate_area_as_rdev_rw FPF_STATUS_FMAP]) 0 1).1) :
    fpf_blown_lookup P s =
      (true, ⟨(P.rdev_readat
          (s.trace ++ [Event.fmap_locate_area_as_rdev_rw FPF_STATUS_FMAP]) 0 1).2 % 2 ^ 8,
        s.trace ++ [Event.fmap_locate_area_as_rdev_rw FPF_STATUS_FMAP] ++
          [Event.rdev_readat 0 1]⟩) := by
  simp [fpf_blown_lookup, hloc, load_cached_fpf, hread]

/-- The lookup phase of `fpf_blown` performs no send, no receive and no write. -/
theorem fpf_blown_lookup_quiet (P : Platform) (s : State) :
    count_send (fpf_blown_lookup P s).2.trace = count_send s.trace ∧
    count_receive (fpf_blown_lookup P s).2.trace = count_receive s.trace ∧
    writes (fpf_blown_lookup P s).2.trace = writes s.trace := by
  by_cases hloc : P.fmap_locate_area_as_rdev_rw s.trace FPF_STATUS_FMAP = 0
  · by_cases hread : 0 ≤ (P.rdev_readat
      (s.trace ++ [Event.fmap_locate_area_as_rdev_rw FPF_STATUS_FMAP]) 0 1).1
    · rw [fpf_blown_lookup_located P s hloc hread]
      simp [count_send, count_receive, writes]
    · simp [fpf_blown_lookup, hloc, load_cached_fpf, hread, count_send, count_receive, writes]
  · rw [fpf_blown_lookup_unlocated P s hloc]
    simp [count_send, count_receive, writes]

/-- Cache hit: `fpf_blown` returns right after the lookup. -/
theorem fpf_blown_hit (P : Platform) (s : State)
    (hvalid : (fpf_blown_lookup P s).1 = true)
    (hknown : (fpf_blown_lookup P s).2.g_fuse_state ≠ FUSE_FLASH_UNKNOWN) :
    fpf_blown P s = (fpf_blown_lookup P s).2 := by
  simp [fpf_blown, hvalid, hknown]

/-- Cache miss and failed file read: `g_fuse_state` stays as the lookup left it. -/
theorem fpf_blown_miss_failed (P : Platform) (s : State)
    (hmiss : (fpf_blown_lookup P s).1 = false ∨
      (fpf_blown_lookup P s).2.g_fuse_state = FUSE_FLASH_UNKNOWN)
    (hfail : (fpf_blown_read P (fpf_blown_lookup P s).2.trace).1 = 0) :
    fpf_blown P s = ⟨(fpf_blown_lookup P s).2.g_fuse_state,
      (fpf_blown_read P (fpf_blown_lookup P s).2.trace).2.2.2⟩ := by
  have hcond : ¬ ((fpf_blown_lookup P s).1 = true ∧
      (fpf_blown_lookup P s).2.g_fuse_state ≠ FUSE_FLASH_UNKNOWN) := by
    rintro ⟨h1, h2⟩
    rcases hmiss with h | h
    · rw [h] at h1; exact Bool.false_ne_true h1
    · exact h2 h
  unfold fpf_blown
  simp only [hcond, if_false, hfail, if_true]

/-- Cache miss and successful file read: the state is chosen from the byte in
`fuse`, and written to the region when the region is valid. -/
theorem fpf_blown_miss_resolved (P : Platform) (s : State)
    (hmiss : (fpf_blown_lookup P s).1 = false ∨
      (fpf_blown_lookup P s).2.g_fuse_state = FUSE_FLASH_UNKNOWN)
    (hok : (fpf_blown_read P (fpf_blown_lookup P s).2.trace).1 ≠ 0) :
    (fpf_blown P s).g_fuse_state =
      (if (fpf_blown_read P (fpf_blown_lookup P s).2.trace).2.1.headD 0 = 1
        then FUSE_FLASH_FUSED else FUSE_FLASH_UNFUSED) ∧
    ∃ log, (∀ e ∈ log, ∃ l t, e = Event.printk l t) ∧
    (fpf_blown P s).trace =
      (fpf_blown_read P (fpf_blown_lookup P s).2.trace).2.2.2 ++
      (if (fpf_blown_lookup P s).1 = true then
        [Event.rdev_writeat
          [(if (fpf_blown_read P (fpf_blown_lookup P s).2.trace).2.1.headD 0 = 1
            then FUSE_FLASH_FUSED else FUSE_FLASH_UNFUSED)] 0 1]
       else []) ++ log := by
  have hcond : ¬ ((fpf_blown_lookup P s).1 = true ∧
      (fpf_blown_lookup P s).2.g_fuse_state ≠ FUSE_FLASH_UNKNOWN) := by
    rintro ⟨h1, h2⟩
    rcases hmiss with h | h
    · rw [h] at h1; exact Bool.false_ne_true h1
    · exact h2 h
  have hmod : ∀ v : Nat, (if v = 1 then FUSE_FLASH_FUSED else FUSE_FLASH_UNFUSED) % 2 ^ 8 =
      (if v = 1 then FUSE_FLASH_FUSED else FUSE_FLASH_UNFUSED) := by
    intro v; by_cases hv : v = 1 <;> simp [hv, FUSE_FLASH_FUSED, FUSE_FLASH_UNFUSED]
  unfold fpf_blown
  simp only [hcond, if_false, hok]
  by_cases hvalid : (fpf_blown_lookup P s).1 = true
  · simp only [hvalid, if_true, save_fpf_state, hmod]
    by_cases hw : P.rdev_writeat (fpf_blown_read P (fpf_blown_lookup P s).2.trace).2.2.2
        [(if (fpf_blown_read P (fpf_blown_lookup P s).2.trace).2.1.headD 0 = 1
          then FUSE_FLASH_FUSED else FUSE_FLASH_UNFUSED)] 0 1 < 0
    · simp only [hw, if_true]
      exact ⟨trivial, [Event.printk LogLevel.BIOS_CRIT "failed to save FPF state\n"],
        by simp, by simp⟩
    · simp only [hw, if_false]
      exact ⟨trivial, [], by simp, by simp⟩
  · simp only [hvalid, if_false]
    exact ⟨rfl, [], by simp, by simp⟩

theorem writes_of_log (log : List Event) (h : ∀ e ∈ log, ∃ l t, e = Event.printk l t) :
    writes log = [] := by
  induction log with
  | nil => rfl
  | cons e es ih =>
    obtain ⟨l, t, he⟩ := h e (List.mem_cons_self e es)
    subst he
    have := ih (fun e he => h e (List.mem_cons_of_mem _ he))
    simpa [writes] using this

theorem count_send_of_log (log : List Event) (h : ∀ e ∈ log, ∃ l t, e = Event.printk l t) :
    count_send log = 0 := by
  induction log with
  | nil => rfl
  | cons e es ih =>
    obtain ⟨l, t, he⟩ := h e (List.mem_cons_self e es)
    subst he
    have := ih (fun e he => h e (List.mem_cons_of_mem _ he))
    simpa [count_send] using this

theorem count_receive_of_log (log : List Event) (h : ∀ e ∈ log, ∃ l t, e = Event.printk l t) :
    count_receive log = 0 := by
  induction log with
  | nil => rfl
  | cons e es ih =>
    obtain ⟨l, t, he⟩ := h e (List.mem_cons_self e es)
    subst he
    have := ih (fun e he => h e (List.mem_cons_of_mem _ he))
    simpa [count_receive] using this

/-- What the lookup phase yields, in terms of the platform: the region is
valid exactly when locating it returned 0, and then `g_fuse_state` is the byte
read from it, or FUSE_FLASH_UNKNOWN when the read failed. -/
theorem fpf_blown_lookup_spec (P : Platform) (s : State) :
    ((fpf_blown_lookup P s).1 = true ↔
      P.fmap_locate_area_as_rdev_rw s.trace FPF_STATUS_FMAP = 0) ∧
    (P.fmap_locate_area_as_rdev_rw s.trace FPF_STATUS_FMAP = 0 →
      (fpf_blown_lookup P s).2.g_fuse_state =
        if 0 ≤ (P.rdev_readat
            (s.trace ++ [Event.fmap_locate_area_as_rdev_rw FPF_STATUS_FMAP]) 0 1).1
        then (P.rdev_readat
            (s.trace ++ [Event.fmap_locate_area_as_rdev_rw FPF_STATUS_FMAP]) 0 1).2 % 2 ^ 8
        else FUSE_FLASH_UNKNOWN) := by
  by_cases hloc : P.fmap_locate_area_as_rdev_rw s.trace FPF_STATUS_FMAP = 0
  · by_cases hread : 0 ≤ (P.rdev_readat
      (s.trace ++ [Event.fmap_locate_area_as_rdev_rw FPF_STATUS_FMAP]) 0 1).1
    · simp [fpf_blown_lookup, hloc, load_cached_fpf, hread]
    · simp [fpf_blown_lookup, hloc, load_cached_fpf, hread]
  · simp [fpf_blown_lookup, hloc]

/-! ## Claims on fpf_blown -/

/-- C3: in a run of `fpf_blown` that uses no cached state (the region is not
valid, or the lookup left FUSE_FLASH_UNKNOWN because the byte read was 0xff or
the read failed) and whose file read succeeds leaving byte `v` in `fuse`, the
fuse state becomes FUSE_FLASH_FUSED = 0xfc when `v = 1` and
FUSE_FLASH_UNFUSED = 0xfe otherwise; when the region is valid the run makes
exactly one `rdev_writeat`, of that one raw state byte at offset 0, and when it
is not valid the run makes none. -/
theorem fpf_blown_resolves_from_file (P : Platform) (s : State) (v : Nat)
    (hmiss : (fpf_blown_lookup P s).1 = false ∨
      (fpf_blown_lookup P s).2.g_fuse_state = FUSE_FLASH_UNKNOWN)
    (hok : (fpf_blown_read P (fpf_blown_lookup P s).2.trace).1 ≠ 0)
    (hv : (fpf_blown_read P (fpf_blown_lookup P s).2.trace).2.1 = [v]) :
    (fpf_blown P s).g_fuse_state = (if v = 1 then 0xfc else 0xfe) ∧
    (fpf_blown P s).g_fuse_state = (if v = 1 then FUSE_FLASH_FUSED else FUSE_FLASH_UNFUSED) ∧
    ((fpf_blown_lookup P s).1 = true →
      writes (fpf_blown P s).trace =
        writes s.trace ++ [([if v = 1 then 0xfc else 0xfe], 0, 1)]) ∧
    ((fpf_blown_lookup P s).1 = false →
      writes (fpf_blown P s).trace = writes s.trace) := by
  obtain ⟨hg, log, hlog, htr⟩ := fpf_blown_miss_resolved P s hmiss hok
  have hhead : (fpf_blown_read P (fpf_blown_lookup P s).2.trace).2.1.headD 0 = v := by
    rw [hv]; rfl
  rw [hhead] at hg htr
  have hw0 : writes (fpf_blown_read P (fpf_blown_lookup P s).2.trace).2.2.2 = writes s.trace := by
    rw [fpf_blown_read_writes, (fpf_blown_lookup_quiet P s).2.2]
  refine ⟨hg, hg, ?_, ?_⟩
  · intro hvalid
    rw [htr, if_pos hvalid, writes_append, writes_append, hw0, writes_of_log log hlog]
    simp [writes, FUSE_FLASH_FUSED, FUSE_FLASH_UNFUSED]
  · intro hinvalid
    have hne : ¬ (fpf_blown_lookup P s).1 = true := by rw [hinvalid]; exact Bool.false_ne_true
    rw [htr, if_neg hne, writes_append, writes_append, hw0, writes_of_log log hlog]
    simp [writes]

/-- Witness for C3: the region holds 0xff and the file read delivers 1. -/
theorem fpf_blown_resolves_from_file_witness :
    (fpf_blown (scripted 0 (1, 255) 1 1 9 (response 0 1 1) 0) boot_state).g_fuse_state
      = (if (1 : Nat) = 1 then 0xfc else 0xfe) ∧
    writes (fpf_blown (scripted 0 (1, 255) 1 1 9 (response 0 1 1) 0) boot_state).trace =
      writes boot_state.trace ++ [([if (1 : Nat) = 1 then 0xfc else 0xfe], 0, 1)] :=
  ⟨(fpf_blown_resolves_from_file (scripted 0 (1, 255) 1 1 9 (response 0 1 1) 0) boot_state 1
      (Or.inr (by decide)) (by decide) (by decide)).1,
   (fpf_blown_resolves_from_file (scripted 0 (1, 255) 1 1 9 (response 0 1 1) 0) boot_state 1
      (Or.inr (by decide)) (by decide) (by decide)).2.2.1 (by decide)⟩

/-- C4, counterexample: the region is located and the byte read from it is
0x00, which is neither 0xfc nor 0xfe; `fpf_blown` issues no file read (no
`heci_send`) and leaves `g_fuse_state` at 0. -/
theorem fpf_blown_unrecognized_byte_is_hit :
    (0 : Nat) ≠ FUSE_FLASH_FUSED ∧ (0 : Nat) ≠ FUSE_FLASH_UNFUSED ∧
    fpf_blown (scripted 0 (1, 0) 1 1 9 (response 0 1 1) 0) boot_state =
      ⟨0, [Event.fmap_locate_area_as_rdev_rw FPF_STATUS_FMAP, Event.rdev_readat 0 1]⟩ ∧
    count_send (fpf_blown (scripted 0 (1, 0) 1 1 9 (response 0 1 1) 0) boot_state).trace = 0 := by
  decide

/-- C4, amended: when the region is located and a byte `b` is read from it
successfully, `fpf_blown` issues a file read (one `heci_send`) if and only if
`b` is 0xff; for every other `b`, in particular 0xfc and 0xfe, the resolved
state is `b` and the run consists of the locate and the read only: no
`heci_send`, no `heci_receive`, no `rdev_writeat`. -/
theorem fpf_blown_query_iff_unknown (P : Platform) (s : State) (b : Nat)
    (hloc : P.fmap_locate_area_as_rdev_rw s.trace FPF_STATUS_FMAP = 0)
    (hread : 0 ≤ (P.rdev_readat
      (s.trace ++ [Event.fmap_locate_area_as_rdev_rw FPF_STATUS_FMAP]) 0 1).1)
    (hb : (P.rdev_readat
      (s.trace ++ [Event.fmap_locate_area_as_rdev_rw FPF_STATUS_FMAP]) 0 1).2 = b)
    (hbyte : b < 256) :
    (count_send (fpf_blown P s).trace = count_send s.trace + 1 ↔ b = 0xff) ∧
    (b ≠ 0xff →
      fpf_blown P s = ⟨b, s.trace ++ [Event.fmap_locate_area_as_rdev_rw FPF_STATUS_FMAP] ++
        [Event.rdev_readat 0 1]⟩ ∧
      count_send (fpf_blown P s).trace = count_send s.trace ∧
      count_receive (fpf_blown P s).trace = count_receive s.trace ∧
      writes (fpf_blown P s).trace = writes s.trace) := by
  have hl := fpf_blown_lookup_located P s hloc hread
  rw [hb, Nat.mod_eq_of_lt (by omega : b < 2 ^ 8)] at hl
  have hq := fpf_blown_lookup_quiet P s
  by_cases hff : b = 0xff
  · refine ⟨⟨fun _ => hff, fun _ => ?_⟩, fun h => absurd hff h⟩
    have hmiss : (fpf_blown_lookup P s).1 = false ∨
        (fpf_blown_lookup P s).2.g_fuse_state = FUSE_FLASH_UNKNOWN := by
      right; rw [hl, hff]; rfl
    by_cases hok : (fpf_blown_read P (fpf_blown_lookup P s).2.trace).1 = 0
    · rw [fpf_blown_miss_failed P s hmiss hok]
      show count_send (fpf_blown_read P (fpf_blown_lookup P s).2.trace).2.2.2 = _
      rw [fpf_blown_read_count_send, hq.1]
    · obtain ⟨_, log, hlog, htr⟩ := fpf_blown_miss_resolved P s hmiss hok
      rw [htr, count_send_append, count_send_append, fpf_blown_read_count_send, hq.1,
        count_send_of_log log hlog]
      split <;> rfl
  · have hhit : fpf_blown P s = (fpf_blown_lookup P s).2 :=
      fpf_blown_hit P s (by rw [hl]) (by rw [hl]; exact hff)
    have heq : fpf_blown P s = ⟨b, s.trace ++
        [Event.fmap_locate_area_as_rdev_rw FPF_STATUS_FMAP] ++ [Event.rdev_readat 0 1]⟩ := by
      rw [hhit, hl]
    refine ⟨⟨fun h => ?_, fun h => absurd h hff⟩, fun _ => ⟨heq, ?_, ?_, ?_⟩⟩
    · rw [hhit, hq.1] at h; omega
    · rw [hhit]; exact hq.1
    · rw [hhit]; exact hq.2.1
    · rw [hhit]; exact hq.2.2

/-- Witness for C4 (amended): the region holds 0xfc. -/
theorem fpf_blown_query_iff_unknown_witness :
    (count_send (fpf_blown (scripted 0 (1, 0xfc) 1 1 9 (response 0 1 1) 0) boot_state).trace
      = count_send boot_state.trace + 1 ↔ (0xfc : Nat) = 0xff) :=
  (fpf_blown_query_iff_unknown (scripted 0 (1, 0xfc) 1 1 9 (response 0 1 1) 0) boot_state 0xfc
    (by decide) (by decide) (by decide) (by decide)).1

/-- When locating the region fails and the file read fails, `fpf_blown` leaves
`g_fuse_state` as it was and writes nothing. -/
theorem fpf_blown_unlocated_failed (P : Platform) (s : State)
    (hloc : P.fmap_locate_area_as_rdev_rw s.trace FPF_STATUS_FMAP ≠ 0)
    (hfail : (fpf_blown_read P (fpf_blown_lookup P s).2.trace).1 = 0) :
    (fpf_blown P s).g_fuse_state = s.g_fuse_state ∧
    writes (fpf_blown P s).trace = writes s.trace := by
  have hl := fpf_blown_lookup_unlocated P s hloc
  rw [fpf_blown_miss_failed P s (Or.inl (by rw [hl])) hfail]
  refine ⟨by rw [hl], ?_⟩
  show writes (fpf_blown_read P (fpf_blown_lookup P s).2.trace).2.2.2 = _
  rw [fpf_blown_read_writes, (fpf_blown_lookup_quiet P s).2.2]

/-- C5, counterexample: from the state at process start, with a locate that
fails (-1) and a `heci_send` that fails (0), `fpf_blown` leaves `g_fuse_state`
at 0, the value of the zero-initialised static, which is not the raw value
0xff of FUSE_FLASH_UNKNOWN. -/
theorem fpf_blown_boot_state_stays_zero :
    (fpf_blown (scripted (-1) (1, 255) 0 0 0 (response 0 0 0) 0) boot_state).g_fuse_state = 0 ∧
    (fpf_blown (scripted (-1) (1, 255) 0 0 0 (response 0 0 0) 0) boot_state).g_fuse_state
      ≠ FUSE_FLASH_UNKNOWN ∧
    writes (fpf_blown (scripted (-1) (1, 255) 0 0 0 (response 0 0 0) 0) boot_state).trace = [] := by
  decide

/-- C5, amended: from the state at process start, in every run of `fpf_blown`
in which locating the region fails and the file read fails, `g_fuse_state`
keeps the value it had at process start (raw 0, the zero-initialised static),
which the switch of `dump_cse_state` reports as "unknown" through its
`default:` label, and no `rdev_writeat` is attempted. -/
theorem fpf_blown_boot_unlocated_failed (P : Platform)
    (hloc : P.fmap_locate_area_as_rdev_rw [] FPF_STATUS_FMAP ≠ 0)
    (hfail : (fpf_blown_read P [Event.fmap_locate_area_as_rdev_rw FPF_STATUS_FMAP]).1 = 0) :
    (fpf_blown P boot_state).g_fuse_state = boot_state.g_fuse_state ∧
    (fpf_blown P boot_state).g_fuse_state = 0 ∧
    fpf_status_text (fpf_blown P boot_state).g_fuse_state = "unknown" ∧
    writes (fpf_blown P boot_state).trace = [] := by
  have hl := fpf_blown_lookup_unlocated P boot_state hloc
  have hfail2 : (fpf_blown_read P (fpf_blown_lookup P boot_state).2.trace).1 = 0 := by
    rw [hl]; exact hfail
  obtain ⟨hg, hw⟩ := fpf_blown_unlocated_failed P boot_state hloc hfail2
  refine ⟨hg, hg, ?_, hw⟩
  rw [hg]
  decide

/-- Witness for C5 (amended): the locate returns -1 and the send fails. -/
theorem fpf_blown_boot_unlocated_failed_witness :
    fpf_status_text
      (fpf_blown (scripted (-1) (1, 255) 0 1 0 (response 0 0 0) 3) boot_state).g_fuse_state
      = "unknown" ∧
    writes (fpf_blown (scripted (-1) (1, 255) 0 1 0 (response 0 0 0) 3) boot_state).trace = [] :=
  ⟨(fpf_blown_boot_unlocated_failed (scripted (-1) (1, 255) 0 1 0 (response 0 0 0) 3)
      (by decide) (by decide)).2.2.1,
   (fpf_blown_boot_unlocated_failed (scripted (-1) (1, 255) 0 1 0 (response 0 0 0) 3)
      (by decide) (by decide)).2.2.2⟩

/-! ## Two consecutive runs -/

theorem last_written_append (init : Nat) (a b : List Event) :
    last_written init (a ++ b) = last_written (last_written init a) b := by
  induction a generalizing init with
  | nil => rfl
  | cons e es ih =>
    cases e with
    | rdev_writeat d o n =>
      match d, o, n with
      | [], _, _ => simp [last_written, ih]
      | [x], 0, 1 => simp [last_written, ih]
      | [_], 0, 0 => simp [last_written, ih]
      | [_], 0, _ + 2 => simp [last_written, ih]
      | [_], _ + 1, _ => simp [last_written, ih]
      | _ :: _ :: _, _, _ => simp [last_written, ih]
    | _ => simp [last_written, ih]

theorem last_written_of_log (init : Nat) (log : List Event)
    (h : ∀ e ∈ log, ∃ l t, e = Event.printk l t) : last_written init log = init := by
  induction log with
  | nil => rfl
  | cons e es ih =>
    obtain ⟨l, t, he⟩ := h e (List.mem_cons_self e es)
    subst he
    simpa [last_written] using ih (fun e he => h e (List.mem_cons_of_mem _ he))

/-- A file read leaves the content of the region as it was. -/
theorem fpf_blown_read_last_written (P : Platform) (init : Nat) (tr : List Event) :
    last_written init (fpf_blown_read P tr).2.2.2 = last_written init tr := by
  have h1 : ¬ sizeof_rmsg_buffer < 1 := by decide
  have h2 : ¬ strnlen FUSE_LOCK_FILE MCA_MAX_FILE_PATH_SIZE ≥ MCA_MAX_FILE_PATH_SIZE := by
    decide
  unfold fpf_blown_read read_cse_file
  simp only [h1, h2, if_false]
  split_ifs <;> simp [last_written_append, last_written]

theorem last_written_lt (init : Nat) (tr : List Event) (h : init < 256) :
    last_written init tr < 256 := by
  induction tr generalizing init with
  | nil => exact h
  | cons e es ih =>
    cases e with
    | rdev_writeat d o n =>
      match d, o, n with
      | [], _, _ => simpa [last_written] using ih init h
      | [x], 0, 1 =>
        simp only [last_written]
        exact ih (x % 2 ^ 8) (Nat.mod_lt _ (by decide))
      | [_], 0, 0 => simpa [last_written] using ih init h
      | [_], 0, _ + 2 => simpa [last_written] using ih init h
      | [_], _ + 1, _ => simpa [last_written] using ih init h
      | _ :: _ :: _, _, _ => simpa [last_written] using ih init h
    | _ => simpa [last_written] using ih init h

/-- With a functioning region that holds a byte other than 0xff, `fpf_blown`
is a cache hit: it locates, reads, and returns with the byte as state. -/
theorem fpf_blown_functioning_hit (P : Platform) (init : Nat) (s : State)
    (hreg : functioning_region P init) (hinit : init < 256)
    (hb : last_written init s.trace ≠ 0xff) :
    fpf_blown P s = ⟨last_written init s.trace,
      s.trace ++ [Event.fmap_locate_area_as_rdev_rw FPF_STATUS_FMAP] ++
        [Event.rdev_readat 0 1]⟩ := by
  obtain ⟨hloc, _, _, _⟩ := hreg s.trace
  obtain ⟨_, hread, hval, _⟩ :=
    hreg (s.trace ++ [Event.fmap_locate_area_as_rdev_rw FPF_STATUS_FMAP])
  have hlw : last_written init
      (s.trace ++ [Event.fmap_locate_area_as_rdev_rw FPF_STATUS_FMAP]) =
      last_written init s.trace := by
    rw [last_written_append]; rfl
  have hl := fpf_blown_lookup_located P s hloc hread
  rw [hval, hlw, Nat.mod_eq_of_lt
    (show last_written init s.trace < 2 ^ 8 from last_written_lt init s.trace hinit)] at hl
  rw [fpf_blown_hit P s (by rw [hl]) (by rw [hl]; exact hb), hl]

/-- C8, counterexample: with a functioning region, two consecutive runs of
`fpf_blown` from process start perform no file read at all when the region
already holds 0xfc, and two file reads (two `heci_send` calls) when the region
holds 0xff and the send fails. -/
theorem fpf_blown_twice_not_one_query :
    count_send (fpf_blown (flash_platform 0xfc 1 1 (response 0 1 1))
      (fpf_blown (flash_platform 0xfc 1 1 (response 0 1 1)) boot_state)).trace = 0 ∧
    count_send (fpf_blown (flash_platform 0xff 0 1 (response 0 1 1))
      (fpf_blown (flash_platform 0xff 0 1 (response 0 1 1)) boot_state)).trace = 2 := by
  decide

/-- C8, amended: with a functioning region holding byte `init` at first, take
two consecutive runs of `fpf_blown` such that, if the first one is a cache miss
(the region holds 0xff), its file read succeeds.  Then the two runs perform one
file read in total when the region held 0xff and none otherwise; the second run
is a cache hit that performs no `heci_send` and no `heci_receive` and leaves
`g_fuse_state` equal to the state the first run resolved. -/
theorem fpf_blown_twice (P : Platform) (init : Nat) (s : State)
    (hreg : functioning_region P init) (hinit : init < 256)
    (hq : last_written init s.trace = 0xff →
      (fpf_blown_read P (fpf_blown_lookup P s).2.trace).1 ≠ 0) :
    count_send (fpf_blown P (fpf_blown P s)).trace =
      count_send s.trace + (if last_written init s.trace = 0xff then 1 else 0) ∧
    count_send (fpf_blown P (fpf_blown P s)).trace = count_send (fpf_blown P s).trace ∧
    count_receive (fpf_blown P (fpf_blown P s)).trace =
      count_receive (fpf_blown P s).trace ∧
    (fpf_blown P (fpf_blown P s)).g_fuse_state = (fpf_blown P s).g_fuse_state := by
  have hquiet : ∀ t : State, last_written init t.trace ≠ 0xff →
      count_send (fpf_blown P t).trace = count_send t.trace ∧
      count_receive (fpf_blown P t).trace = count_receive t.trace ∧
      (fpf_blown P t).g_fuse_state = last_written init t.trace := by
    intro t ht
    rw [fpf_blown_functioning_hit P init t hreg hinit ht]
    simp [count_send, count_receive]
  by_cases hff : last_written init s.trace = 0xff
  · obtain ⟨hloc, _, _, _⟩ := hreg s.trace
    obtain ⟨_, hread, hval, _⟩ :=
      hreg (s.trace ++ [Event.fmap_locate_area_as_rdev_rw FPF_STATUS_FMAP])
    have hlw : last_written init
        (s.trace ++ [Event.fmap_locate_area_as_rdev_rw FPF_STATUS_FMAP]) =
        last_written init s.trace := by
      rw [last_written_append]; rfl
    have hl := fpf_blown_lookup_located P s hloc hread
    rw [hval, hlw, hff] at hl
    have hvalid : (fpf_blown_lookup P s).1 = true := by rw [hl]
    have hmiss : (fpf_blown_lookup P s).1 = false ∨
        (fpf_blown_lookup P s).2.g_fuse_state = FUSE_FLASH_UNKNOWN := by
      right; rw [hl]; rfl
    obtain ⟨hg, log, hlog, htr⟩ := fpf_blown_miss_resolved P s hmiss (hq hff)
    rw [if_pos hvalid] at htr
    have hltr : last_written init (fpf_blown_lookup P s).2.trace = 0xff := by
      rw [hl]
      show last_written init (s.trace ++ _ ++ _) = _
      rw [last_written_append, hlw, hff]; rfl
    have hlast : last_written init (fpf_blown P s).trace = (fpf_blown P s).g_fuse_state := by
      rw [htr, last_written_append, last_written_append, last_written_of_log _ log hlog, hg]
      split <;> rfl
    have hne : last_written init (fpf_blown P s).trace ≠ 0xff := by
      rw [hlast, hg]
      split <;> decide
    obtain ⟨h1, h2, h3⟩ := hquiet (fpf_blown P s) hne
    refine ⟨?_, h1, h2, by rw [h3, hlast]⟩
    rw [h1, if_pos hff, htr, count_send_append, count_send_append, fpf_blown_read_count_send,
      (fpf_blown_lookup_quiet P s).1, count_send_of_log log hlog]
    split <;> rfl
  · obtain ⟨h1, h2, h3⟩ := hquiet s hff
    have hs1 : last_written init (fpf_blown P s).trace = last_written init s.trace := by
      rw [fpf_blown_functioning_hit P init s hreg hinit hff]
      show last_written init (s.trace ++ _ ++ _) = _
      rw [last_written_append, last_written_append]; rfl
    obtain ⟨k1, k2, k3⟩ := hquiet (fpf_blown P s) (by rw [hs1]; exact hff)
    exact ⟨by rw [k1, h1, if_neg hff]; rfl, k1, k2, by rw [k3, hs1, h3]⟩

/-- Witness for C8 (amended): the region holds 0xff and the file read
delivers 1, from process start. -/
theorem fpf_blown_twice_witness :
    count_send (fpf_blown (flash_platform 0xff 1 1 (response 0 1 1))
      (fpf_blown (flash_platform 0xff 1 1 (response 0 1 1)) boot_state)).trace =
      count_send boot_state.trace + (if last_written 0xff boot_state.trace = 0xff then 1 else 0) :=
  (fpf_blown_twice (flash_platform 0xff 1 1 (response 0 1 1)) 0xff boot_state
    (fun _ => ⟨rfl, show (0 : Int) ≤ 1 by decide, rfl, fun _ => show (0 : Int) ≤ 1 by decide⟩)
    (by decide)
    (fun _ => by decide)).1

end CSE
